import Mathlib

/-!
Verification of the templated-communication response pipeline.

Texts are modelled as lists of characters. The renderer, deviation-score
parser, tolerance table and response pipeline are translated from
src/response_processor.py and src/communication_engine.py. The external
text-generation service is modelled by an oracle recording the outcome of
each transport call; the pipeline additionally reports how many transport
calls it performed.
-/

/-- Python str.title on a list of characters: the first letter of each
maximal run of alphabetic characters is uppercased, the rest lowercased;
other characters pass through. The Bool argument records whether the
previous character was alphabetic. -/
def pyTitleAux : Bool → List Char → List Char
  | _, [] => []
  | prevAlpha, c :: rest =>
    if c.isAlpha then
      (if prevAlpha then c.toLower else c.toUpper) :: pyTitleAux true rest
    else c :: pyTitleAux false rest

def pyTitle (s : List Char) : List Char := pyTitleAux false s

/-- The placeholder token derived from a field key, as in
response_processor.py line 33: underscores become spaces, the result is
title-cased and wrapped in square brackets. -/
def placeholder (field : List Char) : List Char :=
  '[' :: (pyTitle (field.map (fun c => if c = '_' then ' ' else c)) ++ [']'])

/-- Fuelled version of Python str.replace: replaces non-overlapping
occurrences of t by v, scanning left to right. The fuel argument only
serves termination; pyReplace supplies enough fuel. -/
def replFuel (t v : List Char) : Nat → List Char → List Char
  | _, [] => []
  | 0, _ :: _ => []
  | n + 1, c :: rest =>
    if t.isPrefixOf (c :: rest) ∧ t ≠ [] then
      v ++ replFuel t v n (List.drop (t.length - 1) rest)
    else c :: replFuel t v n rest

/-- Python str.replace(t, v) on character lists. -/
def pyReplace (t v s : List Char) : List Char := replFuel t v s.length s

/-- Whether t occurs as a contiguous substring of s. -/
def occursIn (t : List Char) : List Char → Bool
  | [] => t.isPrefixOf []
  | c :: rest => t.isPrefixOf (c :: rest) || occursIn t rest

/-- Python str.strip: drop whitespace from both ends. -/
def pyStrip (s : List Char) : List Char :=
  ((s.dropWhile Char.isWhitespace).reverse.dropWhile Char.isWhitespace).reverse

/-- Value of a digit string. -/
def digitsToNat (ds : List Char) : Nat :=
  ds.foldl (fun a c => 10 * a + (c.toNat - 48)) 0

/-- Value of the regex match of a decimal-number pattern anchored at the
start of l, which is assumed to start with a digit: a maximal digit run,
optionally followed by a dot and a further nonempty maximal digit run. -/
def numValueAt (l : List Char) : ℚ :=
  let ip := l.takeWhile Char.isDigit
  let rest := l.dropWhile Char.isDigit
  match rest with
  | '.' :: r2 =>
    let fp := r2.takeWhile Char.isDigit
    if fp = [] then (digitsToNat ip : ℚ)
    else (digitsToNat ip : ℚ) + (digitsToNat fp : ℚ) / (10 : ℚ) ^ fp.length
  | _ => (digitsToNat ip : ℚ)

/-- Leftmost match of the decimal-number pattern in s, as re.search with
the permissive pattern in communication_engine.py line 124: the match
starts at the first digit of s. -/
def searchNumber : List Char → Option ℚ
  | [] => none
  | c :: rest => if c.isDigit then some (numValueAt (c :: rest)) else searchNumber rest

/-- Association-list lookup, modelling Python dict access by key. -/
def alookup {β : Type} (m : List (List Char × β)) (k : List Char) : Option β :=
  (m.find? (fun p => p.1 = k)).map Prod.snd

/-- Apply a group of placeholder substitutions in order, as the loops in
response_processor.py lines 30-40. -/
def applySubs (subs : List (List Char × List Char)) (body : List Char) : List Char :=
  subs.foldl (fun acc p => pyReplace (placeholder p.1) p.2 acc) body

/-- The substitution part of prepare_standard_response: customer data is
applied first, company info second. -/
def render (body : List Char) (customer_data company_info : List (List Char × List Char)) :
    List Char :=
  applySubs company_info (applySubs customer_data body)

/-- Error taxonomy of the pipeline. -/
inductive PipelineError where
  | templateNotFound (template_type : List Char)
  | generationError (message : List Char)
deriving DecidableEq

/-- Model of prepare_standard_response, response_processor.py lines 17-42:
look the template up, fail if absent, otherwise substitute both groups. -/
def prepare_standard_response (standard_responses : List (List Char × List Char))
    (template_type : List Char)
    (customer_data company_info : List (List Char × List Char)) :
    Except PipelineError (List Char) :=
  match alookup standard_responses template_type with
  | none => Except.error (PipelineError.templateNotFound template_type)
  | some body => Except.ok (render body customer_data company_info)

/-- A tolerance table entry: percentage ceiling and instruction text. -/
structure ToleranceConfig where
  limit : Int
  instruction : List Char
deriving DecidableEq

def minimalToleranceConfig : ToleranceConfig :=
  ⟨25, "Follow the standard response closely but allow minor modifications to better address the customer inquiry. Deviation should be less than 25%.".data⟩

/-- The deviation_tolerance_settings table from communication_engine.py
lines 22-39. -/
def deviation_tolerance_settings : List (List Char × ToleranceConfig) :=
  [("strict".data,
    ⟨10, "Follow the standard response EXACTLY. Make only minimal changes necessary to address the specific customer inquiry. Deviation should be less than 10%.".data⟩),
   ("minimal".data, minimalToleranceConfig),
   ("moderate".data,
    ⟨50, "Use the standard response as a strong guideline but allow moderate changes to personalize and improve the response. Deviation should be less than 50%.".data⟩),
   ("flexible".data,
    ⟨70, "Use the standard response as a foundation but feel free to significantly modify to create the best possible response. Deviation can be up to 70%.".data⟩)]

/-- Lookup with the minimal entry as default, modelling dict.get in
communication_engine.py lines 51-54 and 135. -/
def toleranceConfigFor (tolerance : List Char) : ToleranceConfig :=
  (alookup deviation_tolerance_settings tolerance).getD minimalToleranceConfig

/-- Model of get_deviation_tolerance_limit, communication_engine.py line 133. -/
def get_deviation_tolerance_limit (tolerance : List Char) : Int :=
  (toleranceConfigFor tolerance).limit

deriving instance DecidableEq for Except

/-- Outcomes of the two transport calls a pipeline run can make. -/
structure EngineOracle where
  personalizeOutcome : Except (List Char) (List Char)
  scoreOutcome : Except (List Char) (List Char)
deriving DecidableEq

/-- Model of generate_personalized_response, communication_engine.py lines
41-85: look up the tolerance entry (fail-open), send the prompt, return
the trimmed reply, and wrap any transport failure in a generation error. -/
def generate_personalized_response (tolerance : List Char)
    (outcome : Except (List Char) (List Char)) : Except (List Char) (List Char) :=
  let _config := toleranceConfigFor tolerance
  match outcome with
  | Except.ok content => Except.ok (pyStrip content)
  | Except.error e => Except.error ("Error generating communication: ".data ++ e)

/-- Model of calculate_deviation_percentage, communication_engine.py lines
87-131: on transport failure return 0.0; otherwise parse the first
numeric substring of the trimmed reply, defaulting to 0.0. -/
def calculate_deviation_percentage (outcome : Except (List Char) (List Char)) : ℚ :=
  match outcome with
  | Except.error _ => 0
  | Except.ok content =>
    match searchNumber (pyStrip content) with
    | some q => q
    | none => 0

/-- The compliance-tier chain from response_processor.py lines 76-87. -/
def classify (deviation : ℚ) (maxAllowed : Int) : List Char :=
  if deviation ≤ 10 then "excellent".data
  else if deviation ≤ 25 then "good".data
  else if deviation ≤ (maxAllowed : ℚ) then "acceptable".data
  else "warning".data

/-- The compliance message produced by the same chain. -/
def complianceMessageFor (deviation : ℚ) (maxAllowed : Int) (tolerance : List Char) :
    List Char :=
  if deviation ≤ 10 then "✅ Excellent: Response closely follows organization standards".data
  else if deviation ≤ 25 then "✅ Good: Response stays within acceptable deviation range".data
  else if deviation ≤ (maxAllowed : ℚ) then "✅ Acceptable: Response meets deviation tolerance requirements".data
  else "❌ Warning: Response exceeds ".data ++ tolerance ++ " tolerance limit (".data
    ++ (toString maxAllowed).data ++ "%)".data

/-- The result record built by generate_response. -/
structure GenerationResult where
  generated_response : List Char
  standard_response : List Char
  deviation_percentage : ℚ
  max_allowed_deviation : Int
  is_compliant : Bool
  compliance_level : List Char
  compliance_message : List Char
  template_type : List Char
  deviation_tolerance : List Char
deriving DecidableEq

/-- Model of generate_response, response_processor.py lines 44-99. The second
component counts the transport calls made to the generation service. -/
def generate_response (standard_responses : List (List Char × List Char))
    (oracle : EngineOracle) (template_type customer_inquiry : List Char)
    (customer_data company_info : List (List Char × List Char))
    (deviation_tolerance : List Char) :
    Except PipelineError GenerationResult × Nat :=
  match prepare_standard_response standard_responses template_type customer_data company_info with
  | Except.error e => (Except.error e, 0)
  | Except.ok standard =>
    match generate_personalized_response deviation_tolerance oracle.personalizeOutcome with
    | Except.error e => (Except.error (PipelineError.generationError e), 1)
    | Except.ok generated =>
      let deviation := calculate_deviation_percentage oracle.scoreOutcome
      let maxAllowed := get_deviation_tolerance_limit deviation_tolerance
      (Except.ok
        { generated_response := generated
          standard_response := standard
          deviation_percentage := deviation
          max_allowed_deviation := maxAllowed
          is_compliant := decide (deviation ≤ (maxAllowed : ℚ))
          compliance_level := classify deviation maxAllowed
          compliance_message := complianceMessageFor deviation maxAllowed deviation_tolerance
          template_type := template_type
          deviation_tolerance := deviation_tolerance }, 2)

theorem replFuel_eq_of_le (t v : List Char) :
    ∀ (n m : Nat) (s : List Char), s.length ≤ n → n ≤ m →
      replFuel t v n s = replFuel t v m s := by
  intro n
  induction n with
  | zero =>
    intro m s hs _
    have hnil : s = [] := List.length_eq_zero.mp (Nat.le_zero.mp hs)
    subst hnil
    cases m <;> rfl
  | succ n ih =>
    intro m s hs hnm
    cases s with
    | nil => cases m <;> rfl
    | cons c rest =>
      cases m with
      | zero => omega
      | succ m' =>
        simp only [replFuel]
        have hrest : rest.length ≤ n := by
          simp only [List.length_cons] at hs; omega
        have hm' : n ≤ m' := by omega
        split
        · have hd : (List.drop (t.length - 1) rest).length ≤ n := by
            have := List.length_drop (t.length - 1) rest
            omega
          rw [ih m' (List.drop (t.length - 1) rest) hd hm']
        · rw [ih m' rest hrest hm']

theorem pyReplace_nil (t v : List Char) : pyReplace t v [] = [] := rfl

theorem pyReplace_cons (t v : List Char) (c : Char) (rest : List Char) :
    pyReplace t v (c :: rest) =
      if t.isPrefixOf (c :: rest) ∧ t ≠ [] then
        v ++ pyReplace t v (List.drop (t.length - 1) rest)
      else c :: pyReplace t v rest := by
  show replFuel t v (rest.length + 1) (c :: rest) = _
  simp only [replFuel]
  split
  · have hd : (List.drop (t.length - 1) rest).length ≤ rest.length := by
      have := List.length_drop (t.length - 1) rest
      omega
    rw [show pyReplace t v (List.drop (t.length - 1) rest)
        = replFuel t v rest.length (List.drop (t.length - 1) rest) from
      replFuel_eq_of_le t v _ _ _ le_rfl hd]
  · rfl

theorem pyReplace_eq_self_of_not_occurs (t v : List Char) :
    ∀ s : List Char, occursIn t s = false → pyReplace t v s = s := by
  intro s
  induction s with
  | nil => intro _; rfl
  | cons c rest ih =>
    intro h
    simp only [occursIn, Bool.or_eq_false_iff] at h
    rw [pyReplace_cons]
    rw [if_neg (fun hc => by rw [h.1] at hc; exact Bool.noConfusion hc.1)]
    rw [ih h.2]

theorem applySubs_eq_self (subs : List (List Char × List Char)) :
    ∀ s : List Char, (∀ p ∈ subs, occursIn (placeholder p.1) s = false) →
      applySubs subs s = s := by
  induction subs with
  | nil => intro s _; rfl
  | cons p ps ih =>
    intro s h
    show applySubs ps (pyReplace (placeholder p.1) p.2 s) = s
    rw [pyReplace_eq_self_of_not_occurs _ _ _ (h p (List.mem_cons_self p ps))]
    exact ih s (fun q hq => h q (List.mem_cons_of_mem p hq))

theorem occursIn_iff (t : List Char) :
    ∀ s : List Char, occursIn t s = true ↔ ∃ p q, s = p ++ t ++ q := by
  intro s
  induction s with
  | nil =>
    simp only [occursIn]
    constructor
    · intro h
      have ht : t = [] := List.prefix_nil.mp ( List.isPrefixOf_iff_prefix.mp h)
      exact ⟨[], [], by simp [ht]⟩
    · rintro ⟨p, q, hpq⟩
      have h1 := List.append_eq_nil.mp hpq.symm
      have h2 := List.append_eq_nil.mp h1.1
      rw [h2.2]
      rfl
  | cons c rest ih =>
    simp only [occursIn, Bool.or_eq_true]
    constructor
    · rintro (h | h)
      · obtain ⟨q, hq⟩ := List.isPrefixOf_iff_prefix.mp h
        exact ⟨[], q, by simp [hq.symm]⟩
      · obtain ⟨p, q, hpq⟩ := ih.mp h
        exact ⟨c :: p, q, by simp [hpq]⟩
    · rintro ⟨p, q, hpq⟩
      cases p with
      | nil =>
        left
        exact List.isPrefixOf_iff_prefix.mpr ⟨q, by simpa using hpq.symm⟩
      | cons c' p' =>
        right
        have h := hpq
        simp only [List.cons_append] at h
        injection h with h1 h2
        exact ih.mpr ⟨p', q, h2⟩

/-- A simple token: an opening bracket, an interior free of both
brackets, and a closing bracket. Every ordinary field key derives such a
token. -/
def SimpleTok (t : List Char) : Prop :=
  ∃ mid, t = '[' :: (mid ++ [']']) ∧ '[' ∉ mid ∧ ']' ∉ mid

/-- A text is tiled by a list of tokens when its opening brackets occur
only as the start of complete occurrences of those tokens: the text is
built from characters other than the opening bracket and whole copies of
tokens of the list. -/
inductive Tiled (ts : List (List Char)) : List Char → Prop
  | nil : Tiled ts []
  | nonbracket (c : Char) (s : List Char) : c ≠ '[' → Tiled ts s → Tiled ts (c :: s)
  | token (t : List Char) (s : List Char) : t ∈ ts → Tiled ts s → Tiled ts (t ++ s)

theorem isPrefixOf_cons_false (tl : List Char) (c : Char) (s : List Char)
    (hc : c ≠ '[') : (('[' :: tl).isPrefixOf (c :: s)) = false := by
  simp only [List.isPrefixOf, Bool.and_eq_false_iff]
  left
  exact beq_eq_false_iff_ne.mpr (fun h => hc h.symm)

theorem Tiled_append_of_no_bracket (ts : List (List Char)) (v : List Char)
    (hv : '[' ∉ v) : ∀ s : List Char, Tiled ts s → Tiled ts (v ++ s) := by
  induction v with
  | nil => intro s hs; exact hs
  | cons c v' ih =>
    intro s hs
    refine Tiled.nonbracket c (v' ++ s) (fun h => hv (h ▸ List.mem_cons_self c v')) ?_
    exact ih (fun h => hv (List.mem_cons_of_mem c h)) s hs

theorem pyReplace_append_of_no_bracket (tl v : List Char) :
    ∀ a b : List Char, '[' ∉ a →
      pyReplace ('[' :: tl) v (a ++ b) = a ++ pyReplace ('[' :: tl) v b := by
  intro a
  induction a with
  | nil => intro b _; rfl
  | cons c a' ih =>
    intro b ha
    have hc : c ≠ '[' := fun h => ha (h ▸ List.mem_cons_self c a')
    rw [List.cons_append, pyReplace_cons]
    rw [if_neg (fun hcon => by
      rw [isPrefixOf_cons_false tl c (a' ++ b) hc] at hcon
      exact Bool.noConfusion hcon.1)]
    rw [ih b (fun h => ha (List.mem_cons_of_mem c h))]
    rfl

theorem eq_of_append_sep (m₀ : List Char) :
    ∀ (m u s : List Char), ']' ∉ m₀ → ']' ∉ m →
      m₀ ++ ']' :: u = m ++ ']' :: s → m₀ = m := by
  induction m₀ with
  | nil =>
    intro m u s _ hm h
    cases m with
    | nil => rfl
    | cons c m' =>
      rw [List.nil_append, List.cons_append] at h
      injection h with h1 _
      exact absurd (h1 ▸ List.mem_cons_self c m') hm
  | cons c₀ m₀' ih =>
    intro m u s h₀ hm h
    cases m with
    | nil =>
      rw [List.nil_append, List.cons_append] at h
      injection h with h1 _
      exact absurd (h1 ▸ List.mem_cons_self c₀ m₀') h₀
    | cons c m' =>
      simp only [List.cons_append] at h
      injection h with h1 h2
      rw [h1, ih m' u s (fun hx => h₀ (List.mem_cons_of_mem c₀ hx))
        (fun hx => hm (List.mem_cons_of_mem c hx)) h2]

/-- Two distinct simple tokens cannot match at the same position: the
earlier closing bracket stops the longer one first. -/
theorem simpleTok_no_match_at {t t₀ : List Char} (ht : SimpleTok t) (ht₀ : SimpleTok t₀)
    (hne : t ≠ t₀) (s : List Char) : (t₀.isPrefixOf (t ++ s)) = false := by
  obtain ⟨m, hm, _, hmR⟩ := ht
  obtain ⟨m₀, hm₀, _, hm₀R⟩ := ht₀
  cases hp : t₀.isPrefixOf (t ++ s) with
  | false => rfl
  | true =>
    exfalso
    obtain ⟨u, hu⟩ := List.isPrefixOf_iff_prefix.mp hp
    rw [hm, hm₀] at hu
    simp only [List.cons_append] at hu
    injection hu with _ h2
    have h3 : m₀ ++ ']' :: u = m ++ ']' :: s := by
      simpa [List.append_assoc] using h2
    have hmm := eq_of_append_sep m₀ m u s hm₀R hmR h3
    exact hne (by rw [hm, hm₀, hmm])

/-- Replacing one simple token with a bracket-free value keeps the text
tiled by the remaining tokens: occurrences of the replaced token vanish
and occurrences of the other tokens survive untouched. -/
theorem Tiled_pyReplace (ts : List (List Char)) (t₀ v : List Char)
    (hts : ∀ t ∈ ts, SimpleTok t) (ht₀ : SimpleTok t₀) (hv : '[' ∉ v) :
    ∀ s : List Char, Tiled ts s →
      Tiled (ts.filter (fun t => t ≠ t₀)) (pyReplace t₀ v s) := by
  intro s hs
  obtain ⟨m₀, hm₀, hm₀L, hm₀R⟩ := ht₀
  induction hs with
  | nil => rw [pyReplace_nil]; exact Tiled.nil
  | nonbracket c s hc _ ih =>
    rw [pyReplace_cons]
    rw [if_neg (fun hcon => by
      rw [hm₀, isPrefixOf_cons_false (m₀ ++ [']']) c s hc] at hcon
      exact Bool.noConfusion hcon.1)]
    exact Tiled.nonbracket c _ hc ih
  | token t s htmem _ ih =>
    by_cases hne : t = t₀
    · subst hne
      have hshape : t ++ s = '[' :: ((m₀ ++ [']']) ++ s) := by rw [hm₀]; rfl
      rw [hshape, pyReplace_cons]
      have hpre : (t.isPrefixOf ('[' :: ((m₀ ++ [']']) ++ s))) = true := by
        rw [hm₀]
        exact List.isPrefixOf_iff_prefix.mpr ⟨s, rfl⟩
      rw [if_pos ⟨hpre, by rw [hm₀]; exact List.cons_ne_nil _ _⟩]
      have hlen : t.length - 1 = (m₀ ++ [']']).length := by rw [hm₀]; simp
      rw [hlen, List.drop_left]
      exact Tiled_append_of_no_bracket _ v hv _ ih
    · have hsim := hts t htmem
      obtain ⟨m, hm, hmL, hmR⟩ := hsim
      have hshape : t ++ s = '[' :: ((m ++ [']']) ++ s) := by rw [hm]; rfl
      rw [hshape, pyReplace_cons]
      rw [if_neg (fun hcon => by
        rw [show ('[' : Char) :: ((m ++ [']']) ++ s) = t ++ s from hshape.symm] at hcon
        rw [hm₀] at hcon
        rw [show ('[' : Char) :: (m₀ ++ [']']) = t₀ from hm₀.symm] at hcon
        rw [simpleTok_no_match_at ⟨m, hm, hmL, hmR⟩ ⟨m₀, hm₀, hm₀L, hm₀R⟩ hne s] at hcon
        exact Bool.noConfusion hcon.1)]
      have hnb : '[' ∉ m ++ [']'] := by
        intro hx
        rcases List.mem_append.mp hx with h | h
        · exact hmL h
        · simp at h
      rw [hm₀, pyReplace_append_of_no_bracket (m₀ ++ [']']) v (m ++ [']']) s hnb,
        ← hm₀]
      have : ('[' : Char) :: ((m ++ [']']) ++ pyReplace t₀ v s)
          = t ++ pyReplace t₀ v s := by rw [hm]; rfl
      rw [this]
      refine Tiled.token t _ ?_ ih
      exact List.mem_filter.mpr ⟨htmem, by simpa using hne⟩

theorem Tiled_no_member_no_bracket (ts : List (List Char)) :
    ∀ s : List Char, Tiled ts s → (∀ t, t ∈ ts → False) → '[' ∉ s := by
  intro s hs
  induction hs with
  | nil => intro _; simp
  | nonbracket c s hc _ ih =>
    intro hempty hmem
    rcases List.mem_cons.mp hmem with h | h
    · exact hc h.symm
    · exact ih hempty h
  | token t s htmem _ _ =>
    intro hempty
    exact absurd htmem (hempty t)

/-- Applying a whole substitution list to a text tiled by the derived
tokens leaves no opening bracket at all, provided every derived token is
simple and every value is bracket-free. -/
theorem applySubs_no_bracket :
    ∀ (subs : List (List Char × List Char)) (ts : List (List Char)) (s : List Char),
      (∀ t ∈ ts, SimpleTok t) →
      (∀ p ∈ subs, SimpleTok (placeholder p.1) ∧ '[' ∉ p.2) →
      (∀ t ∈ ts, ∃ p ∈ subs, placeholder p.1 = t) →
      Tiled ts s → '[' ∉ applySubs subs s := by
  intro subs
  induction subs with
  | nil =>
    intro ts s _ _ hcover hs
    have hempty : ∀ t, t ∈ ts → False := by
      intro t htmem
      obtain ⟨p, hp, _⟩ := hcover t htmem
      exact absurd hp (List.not_mem_nil p)
    exact Tiled_no_member_no_bracket ts s hs hempty
  | cons kv rest ih =>
    intro ts s hts hsubs hcover hs
    have hstep := Tiled_pyReplace ts (placeholder kv.1) kv.2 hts
      (hsubs kv (List.mem_cons_self kv rest)).1
      (hsubs kv (List.mem_cons_self kv rest)).2 s hs
    show '[' ∉ applySubs rest (pyReplace (placeholder kv.1) kv.2 s)
    refine ih (ts.filter (fun t => t ≠ placeholder kv.1)) _ ?_ ?_ ?_ hstep
    · intro t htmem
      exact hts t (List.mem_filter.mp htmem).1
    · intro p hp
      exact hsubs p (List.mem_cons_of_mem kv hp)
    · intro t htmem
      obtain ⟨htts, htne⟩ := List.mem_filter.mp htmem
      obtain ⟨p, hp, hpt⟩ := hcover t htts
      rcases List.mem_cons.mp hp with h | h
      · exfalso
        rw [h] at hpt
        simp only [decide_eq_true_eq] at htne
        exact htne hpt.symm
      · exact ⟨p, h, hpt⟩

/-- If a bracket-opened token occurs inside the three-character text [A],
it is the whole text. -/
theorem token_infix_of_bracketA (mid p q : List Char)
    (h : p ++ ('[' :: (mid ++ [']'])) ++ q = ['[', 'A', ']']) :
    '[' :: (mid ++ [']']) = ['[', 'A', ']'] := by
  cases p with
  | nil =>
    simp only [List.nil_append, List.cons_append] at h
    injection h with h0 h1
    cases mid with
    | nil => simp at h1
    | cons m ms =>
      simp only [List.cons_append] at h1
      injection h1 with h2 h3
      cases ms with
      | nil =>
        simp only [List.nil_append, List.cons_append] at h3
        injection h3 with h4 h5
        have hq : q = [] := h5
        subst h2
        rfl
      | cons m2 ms2 =>
        simp only [List.cons_append] at h3
        injection h3 with h4 h5
        simp at h5
  | cons c p' =>
    simp only [List.cons_append] at h
    injection h with h0 h1
    have hmem : '[' ∈ p' ++ ('[' :: (mid ++ [']'])) ++ q := by simp
    rw [h1] at hmem
    simp at hmem

/-- The supplied field set covers every placeholder token occurring in the
body: any token-shaped occurrence is the token of some supplied entry. -/
def coversAll (subs : List (List Char × List Char)) (body : List Char) : Prop :=
  ∀ field : List Char, occursIn (placeholder field) body = true →
    ∃ p ∈ subs, placeholder p.1 = placeholder field

/-- On the success path, the fields of the result record are exactly the
deviation score, ceiling, compliance decision and tier computed by the
pipeline. -/
theorem generate_response_ok_fields (standard_responses : List (List Char × List Char))
    (oracle : EngineOracle) (template_type customer_inquiry : List Char)
    (customer_data company_info : List (List Char × List Char))
    (deviation_tolerance : List Char) (r : GenerationResult)
    (hok : (generate_response standard_responses oracle template_type customer_inquiry
        customer_data company_info deviation_tolerance).1 = Except.ok r) :
    r.deviation_percentage = calculate_deviation_percentage oracle.scoreOutcome ∧
    r.max_allowed_deviation = get_deviation_tolerance_limit deviation_tolerance ∧
    r.is_compliant = decide (calculate_deviation_percentage oracle.scoreOutcome ≤
      (get_deviation_tolerance_limit deviation_tolerance : ℚ)) ∧
    r.compliance_level = classify (calculate_deviation_percentage oracle.scoreOutcome)
      (get_deviation_tolerance_limit deviation_tolerance) := by
  unfold generate_response at hok
  rcases hpre : prepare_standard_response standard_responses template_type customer_data
      company_info with e | standard
  · rw [hpre] at hok
    exact absurd hok (by simp)
  · rw [hpre] at hok
    rcases hper : generate_personalized_response deviation_tolerance
        oracle.personalizeOutcome with e | generated
    · rw [hper] at hok
      exact absurd hok (by simp)
    · rw [hper] at hok
      simp only [Except.ok.injEq] at hok
      subst hok
      exact ⟨rfl, rfl, rfl, rfl⟩

/-- Claim C1 counterexample: the claim asserts classify(11, 10) is the
warning tier, but the code classifies 11 as good, because the second
threshold (at most 25) is checked before the tolerance ceiling. -/
theorem C1_counterexample :
    classify 11 10 = "good".data ∧ "good".data ≠ "warning".data := by decide

/-- Claim C1 (amended): compliance-tier classification is a pure function
of the deviation score and the tolerance ceiling, evaluated as ordered
thresholds (at most 10 excellent, at most 25 good, at most the ceiling
acceptable, otherwise warning); the listed concrete classifications hold,
with classify(11, 10) equal to good rather than warning, and for ceiling
10 the acceptable tier is unreachable: every score classifies as
excellent, good or warning. -/
theorem C1_classification_thresholds :
    (∀ (d : ℚ) (c : Int), classify d c =
      if d ≤ 10 then "excellent".data
      else if d ≤ 25 then "good".data
      else if d ≤ (c : ℚ) then "acceptable".data
      else "warning".data) ∧
    classify 8 25 = "excellent".data ∧
    classify 18 25 = "good".data ∧
    classify 40 50 = "acceptable".data ∧
    classify 40 25 = "warning".data ∧
    classify 10 10 = "excellent".data ∧
    classify 11 10 = "good".data ∧
    (∀ d : ℚ, classify d 10 ∈ ["excellent".data, "good".data, "warning".data]) := by
  refine ⟨fun _ _ => rfl, by decide, by decide, by decide, by decide, by decide, by decide, ?_⟩
  intro d
  by_cases h1 : d ≤ 10
  · simp [classify, h1]
  · by_cases h2 : d ≤ 25
    · simp [classify, h1, h2]
    · have h3 : ¬ d ≤ ((10 : Int) : ℚ) := fun hc => h1 (by exact_mod_cast hc)
      simp [classify, h1, h2, h3]

/-- Claim C2: when the template key is absent from the standard-responses
table, generate_response fails with the template-not-found error and
performs zero transport calls to the generation client. -/
theorem C2_unknown_template_aborts (standard_responses : List (List Char × List Char))
    (oracle : EngineOracle) (template_type customer_inquiry : List Char)
    (customer_data company_info : List (List Char × List Char))
    (deviation_tolerance : List Char)
    (habsent : alookup standard_responses template_type = none) :
    generate_response standard_responses oracle template_type customer_inquiry
      customer_data company_info deviation_tolerance =
    (Except.error (PipelineError.templateNotFound template_type), 0) := by
  unfold generate_response prepare_standard_response
  rw [habsent]

/-- Witness for C2 at a concrete missing template key. -/
theorem C2_witness :
    alookup [("greeting".data, "Hello [Customer Name]".data)] "unknown_template".data
      = none ∧
    generate_response [("greeting".data, "Hello [Customer Name]".data)]
      ⟨Except.ok "hi".data, Except.ok "5".data⟩ "unknown_template".data "inq".data
      [] [] "minimal".data =
    (Except.error (PipelineError.templateNotFound "unknown_template".data), 0) :=
  ⟨by decide, C2_unknown_template_aborts _ _ _ _ _ _ _ (by decide)⟩

/-- Claim C4: deviation scoring is total and never aborts: a transport
failure yields 0, a reply with no digit yields 0, a reply with a first
numeric substring yields its value, and the three concrete examples
evaluate as documented. -/
theorem C4_score_deviation_total :
    (∀ e : List Char, calculate_deviation_percentage (Except.error e) = 0) ∧
    calculate_deviation_percentage (Except.ok "Deviation: 73%".data) = 73 ∧
    calculate_deviation_percentage (Except.ok "12.5".data) = 12.5 ∧
    calculate_deviation_percentage (Except.ok "I cannot determine this.".data) = 0 ∧
    (∀ reply : List Char, (∀ c ∈ reply, c.isDigit = false) →
      calculate_deviation_percentage (Except.ok reply) = 0) ∧
    (∀ (reply : List Char) (q : ℚ), searchNumber (pyStrip reply) = some q →
      calculate_deviation_percentage (Except.ok reply) = q) := by
  refine ⟨fun _ => rfl, by decide, ?_, by decide, ?_, ?_⟩
  · show (12 : ℚ) + 5 / 10 ^ (1 : ℕ) = 12.5
    norm_num
  · intro reply h
    have hstrip : ∀ c ∈ pyStrip reply, c.isDigit = false := by
      intro c hc
      apply h
      have h1 : c ∈ (reply.dropWhile Char.isWhitespace).reverse.dropWhile Char.isWhitespace := by
        simpa [pyStrip] using hc
      have h2 : c ∈ (reply.dropWhile Char.isWhitespace).reverse :=
        ( List.dropWhile_suffix Char.isWhitespace).sublist.subset h1
      have h3 : c ∈ reply.dropWhile Char.isWhitespace := List.mem_reverse.mp h2
      exact ( List.dropWhile_suffix Char.isWhitespace).sublist.subset h3
    have hnone : searchNumber (pyStrip reply) = none := by
      generalize pyStrip reply = l at hstrip
      induction l with
      | nil => rfl
      | cons c rest ih =>
        simp only [searchNumber]
        rw [hstrip c (List.mem_cons_self c rest)]
        simp only [Bool.false_eq_true, if_false]
        exact ih (fun d hd => hstrip d (List.mem_cons_of_mem c hd))
    simp [calculate_deviation_percentage, hnone]
  · intro reply q hq
    simp [calculate_deviation_percentage, hq]

/-- Witness for C4 at a transport failure and a digit-free reply. -/
theorem C4_witness :
    calculate_deviation_percentage (Except.error "boom".data) = 0 ∧
    calculate_deviation_percentage (Except.ok "no digits here".data) = 0 :=
  ⟨C4_score_deviation_total.1 "boom".data,
   C4_score_deviation_total.2.2.2.2.1 "no digits here".data (by decide)⟩

/-- Claim C5: tolerance lookup is total and fails open: every key yields
an entry of the tolerance table, and a key outside the four recognized
ones falls back to the minimal entry with ceiling 25. -/
theorem C5_tolerance_lookup_total :
    (∀ tolerance : List Char,
      toleranceConfigFor tolerance ∈ deviation_tolerance_settings.map Prod.snd) ∧
    (∀ tolerance : List Char,
      tolerance ∉ ["strict".data, "minimal".data, "moderate".data, "flexible".data] →
      toleranceConfigFor tolerance = minimalToleranceConfig ∧
      get_deviation_tolerance_limit tolerance = 25) := by
  constructor
  · intro tolerance
    unfold toleranceConfigFor alookup
    rcases hfind : deviation_tolerance_settings.find? (fun p => p.1 = tolerance) with _ | p
    · rw [hfind]
      decide
    · rw [hfind]
      show p.2 ∈ deviation_tolerance_settings.map Prod.snd
      exact List.mem_map_of_mem Prod.snd (List.mem_of_find?_eq_some hfind)
  · intro tolerance h
    simp only [List.mem_cons, List.not_mem_nil, or_false, not_or] at h
    obtain ⟨h1, h2, h3, h4⟩ := h
    have e1 : ("strict".data = tolerance) = False := eq_false (fun hc => h1 hc.symm)
    have e2 : ("minimal".data = tolerance) = False := eq_false (fun hc => h2 hc.symm)
    have e3 : ("moderate".data = tolerance) = False := eq_false (fun hc => h3 hc.symm)
    have e4 : ("flexible".data = tolerance) = False := eq_false (fun hc => h4 hc.symm)
    have hfind : alookup deviation_tolerance_settings tolerance = none := by
      simp [alookup, deviation_tolerance_settings, List.find?, e1, e2, e3, e4]
    constructor
    · unfold toleranceConfigFor
      rw [hfind]
      rfl
    · unfold get_deviation_tolerance_limit toleranceConfigFor
      rw [hfind]
      rfl

/-- Witness for C5 at a concrete unrecognized tolerance key. -/
theorem C5_witness :
    toleranceConfigFor "bogus".data = minimalToleranceConfig ∧
    get_deviation_tolerance_limit "bogus".data = 25 :=
  C5_tolerance_lookup_total.2 "bogus".data (by decide)

/-- Claim C6: for each supplied entry the renderer derives the bracketed
title-cased token and replaces every literal occurrence of it by exact
substring substitution, applying customer-data entries first and
company-info entries second; account_number derives [Account Number] and
repeated occurrences are all replaced. -/
theorem C6_renderer_substitution :
    placeholder "account_number".data = "[Account Number]".data ∧
    (∀ field : List Char, placeholder field =
      '[' :: (pyTitle (field.map (fun c => if c = '_' then ' ' else c)) ++ [']'])) ∧
    (∀ (body : List Char) (customer_data company_info : List (List Char × List Char)),
      render body customer_data company_info =
        applySubs company_info (applySubs customer_data body)) ∧
    (∀ (k v : List Char) (rest : List (List Char × List Char)) (s : List Char),
      applySubs ((k, v) :: rest) s = applySubs rest (pyReplace (placeholder k) v s)) ∧
    pyReplace (placeholder "customer_name".data) "Jane".data
      "Dear [Customer Name], your [Customer Name] account".data =
      "Dear Jane, your Jane account".data := by
  exact ⟨by decide, fun _ => rfl, fun _ _ _ => rfl, fun _ _ _ _ => rfl, by decide⟩

/-- Claim C7 counterexample: the field set consisting of the single entry
a with value x[A]y covers every placeholder token occurring in the body
[A], yet rendering the rendered output again changes it, because the
substituted value reintroduces the token. -/
theorem C7_counterexample :
    coversAll ([("a".data, "x[A]y".data)] ++ []) "[A]".data ∧
    render (render "[A]".data [("a".data, "x[A]y".data)] [])
        [("a".data, "x[A]y".data)] [] ≠
      render "[A]".data [("a".data, "x[A]y".data)] [] := by
  constructor
  · intro field hocc
    obtain ⟨p, q, hpq⟩ := (occursIn_iff (placeholder field) "[A]".data).mp hocc
    have hdata : "[A]".data = ['[', 'A', ']'] := rfl
    rw [hdata] at hpq
    have htok := token_infix_of_bracketA
      (pyTitle (field.map (fun c => if c = '_' then ' ' else c))) p q hpq.symm
    refine ⟨("a".data, "x[A]y".data), by simp, ?_⟩
    show placeholder "a".data = placeholder field
    rw [show placeholder "a".data = ['[', 'A', ']'] from by decide]
    exact htok.symm
  · decide

/-- Claim C7 (amended): rendering is idempotent provided that, in
addition to the field set covering the body, no derived token of a supplied
entry occurs in the first rendered output — that is, no substituted
value reintroduces a placeholder token. -/
theorem C7_amended_idempotent (body : List Char)
    (customer_data company_info : List (List Char × List Char))
    (hclean : ∀ p ∈ customer_data ++ company_info,
      occursIn (placeholder p.1) (render body customer_data company_info) = false) :
    render (render body customer_data company_info) customer_data company_info =
      render body customer_data company_info := by
  have hcd : ∀ p ∈ customer_data,
      occursIn (placeholder p.1) (render body customer_data company_info) = false :=
    fun p hp => hclean p (List.mem_append_left _ hp)
  have hci : ∀ p ∈ company_info,
      occursIn (placeholder p.1) (render body customer_data company_info) = false :=
    fun p hp => hclean p (List.mem_append_right _ hp)
  show applySubs company_info
      (applySubs customer_data (render body customer_data company_info)) =
    render body customer_data company_info
  rw [applySubs_eq_self customer_data _ hcd]
  exact applySubs_eq_self company_info _ hci

/-- Witness for the amended C7 at a concrete fully-covered template. -/
theorem C7_witness :
    render (render "[A] hello".data [("a".data, "Bob".data)]
        [("company_name".data, "Acme".data)])
      [("a".data, "Bob".data)] [("company_name".data, "Acme".data)] =
      render "[A] hello".data [("a".data, "Bob".data)]
        [("company_name".data, "Acme".data)] :=
  C7_amended_idempotent _ _ _ (by decide)

/-- Claim C8 counterexample: for the body [[A]] and value A, which
contains no bracket syntax at all, the rendered output is exactly the
token [A]; the residual brackets of the body recombine around the
substituted value, so the token reappears even though the value does not
reintroduce bracket syntax. -/
theorem C8_counterexample :
    ('[' ∉ "A".data) ∧ (']' ∉ "A".data) ∧
    render "[[A]]".data [("a".data, "A".data)] [] = "[A]".data ∧
    occursIn (placeholder "a".data) (render "[[A]]".data [("a".data, "A".data)] [])
      = true := by
  decide

/-- Claim C8 (amended): after rendering with the supplied field set
(customer data then company info), no derived placeholder token — in
particular none of the supplied keys — appears in the output, provided
no supplied value contains an opening bracket and the opening brackets
of the body occur only as complete occurrences of supplied tokens with
bracket-free interiors; otherwise bracket fragments of the body or of
values may recombine into a fresh token occurrence. -/
theorem C8_amended_token_elimination (body : List Char)
    (customer_data company_info : List (List Char × List Char))
    (hsubs : ∀ p ∈ customer_data ++ company_info,
      SimpleTok (placeholder p.1) ∧ '[' ∉ p.2)
    (htiled : Tiled ((customer_data ++ company_info).map (fun p => placeholder p.1))
      body) :
    ∀ k : List Char,
      occursIn (placeholder k) (render body customer_data company_info) = false := by
  intro k
  have hfold : applySubs (customer_data ++ company_info) body
      = render body customer_data company_info := by
    unfold render applySubs
    rw [List.foldl_append]
  have hnb : '[' ∉ applySubs (customer_data ++ company_info) body := by
    refine applySubs_no_bracket (customer_data ++ company_info)
      ((customer_data ++ company_info).map (fun p => placeholder p.1)) body
      ?_ hsubs ?_ htiled
    · intro t htmem
      obtain ⟨p, hp, hpt⟩ := List.mem_map.mp htmem
      exact hpt ▸ (hsubs p hp).1
    · intro t htmem
      obtain ⟨p, hp, hpt⟩ := List.mem_map.mp htmem
      exact ⟨p, hp, hpt⟩
  rw [← hfold]
  cases hocc : occursIn (placeholder k)
      (applySubs (customer_data ++ company_info) body) with
  | false => rfl
  | true =>
    exfalso
    obtain ⟨p, q, hpq⟩ := (occursIn_iff _ _).mp hocc
    apply hnb
    rw [hpq]
    simp [placeholder]

/-- Witness for the amended C8: a two-entry field set, one customer-data
entry and one company-info entry, with bracket-free values on a body
tiled by the two derived tokens. -/
theorem C8_witness :
    occursIn (placeholder "account_number".data)
        (render "[Account Number]x[Company Name]".data
          [("account_number".data, "12345".data)]
          [("company_name".data, "Acme".data)]) = false ∧
    occursIn (placeholder "company_name".data)
        (render "[Account Number]x[Company Name]".data
          [("account_number".data, "12345".data)]
          [("company_name".data, "Acme".data)]) = false := by
  have hsubs : ∀ p ∈ [("account_number".data, "12345".data)] ++
      [("company_name".data, "Acme".data)],
      SimpleTok (placeholder p.1) ∧ '[' ∉ p.2 := by
    intro p hp
    rcases List.mem_cons.mp hp with h | h
    · rw [h]
      exact ⟨⟨"Account Number".data, by decide, by decide, by decide⟩, by decide⟩
    · rcases List.mem_cons.mp h with h2 | h2
      · rw [h2]
        exact ⟨⟨"Company Name".data, by decide, by decide, by decide⟩, by decide⟩
      · exact absurd h2 (List.not_mem_nil p)
  have d1 : Tiled [placeholder "account_number".data, placeholder "company_name".data]
      (placeholder "company_name".data ++ []) :=
    Tiled.token _ [] (by decide) Tiled.nil
  rw [List.append_nil] at d1
  have d2 : Tiled [placeholder "account_number".data, placeholder "company_name".data]
      ('x' :: placeholder "company_name".data) :=
    Tiled.nonbracket 'x' _ (by decide) d1
  have d3 : Tiled [placeholder "account_number".data, placeholder "company_name".data]
      (placeholder "account_number".data ++ ('x' :: placeholder "company_name".data)) :=
    Tiled.token _ _ (by decide) d2
  have he : placeholder "account_number".data ++ ('x' :: placeholder "company_name".data)
      = "[Account Number]x[Company Name]".data := by decide
  rw [he] at d3
  exact ⟨C8_amended_token_elimination _ _ _ hsubs d3 _,
    C8_amended_token_elimination _ _ _ hsubs d3 _⟩

/-- Claim C9 counterexample: the token namespaces of the two groups are
disjoint ([A] versus [B]), yet the two application orders disagree,
because the customer-data value [B] introduces an occurrence of the
company-info token that only the customer-first order goes on to
replace. -/
theorem C9_counterexample :
    (∀ p ∈ [("a".data, "[B]".data)], ∀ q ∈ [("b".data, "x".data)],
      placeholder p.1 ≠ placeholder q.1) ∧
    applySubs [("b".data, "x".data)]
        (applySubs [("a".data, "[B]".data)] "[A]".data) ≠
      applySubs [("a".data, "[B]".data)]
        (applySubs [("b".data, "x".data)] "[A]".data) := by
  decide

/-- Claim C9 (amended): the order of the two substitution groups does
not matter provided the company-info tokens occur neither in the body
nor in the customer-data substitution output; disjoint token namespaces
alone are not enough when a substituted value reintroduces a token
of the other group. -/
theorem C9_amended_commute (body : List Char)
    (customer_data company_info : List (List Char × List Char))
    (hbody : ∀ p ∈ company_info, occursIn (placeholder p.1) body = false)
    (hout : ∀ p ∈ company_info,
      occursIn (placeholder p.1) (applySubs customer_data body) = false) :
    applySubs company_info (applySubs customer_data body) =
      applySubs customer_data (applySubs company_info body) := by
  rw [applySubs_eq_self company_info _ hout, applySubs_eq_self company_info _ hbody]

/-- Witness for the amended C9 at concrete non-colliding substitutions. -/
theorem C9_witness :
    applySubs [("company_name".data, "Acme".data)]
        (applySubs [("a".data, "Bob".data)] "[A] hi".data) =
      applySubs [("a".data, "Bob".data)]
        (applySubs [("company_name".data, "Acme".data)] "[A] hi".data) :=
  C9_amended_commute "[A] hi".data _ _ (by decide) (by decide)

/-- Claim C10: a result classified warning is never compliant, since the
warning branch requires the score to exceed the ceiling; the pipeline
builds the tier and the flag from the score and ceiling exactly this
way; and the converse fails: a score of 20 against ceiling 10 is
noncompliant yet classified good. -/
theorem C10_tier_flag_disagreement :
    (∀ (d : ℚ) (m : Int), classify d m = "warning".data →
      decide (d ≤ (m : ℚ)) = false) ∧
    (∀ (standard_responses : List (List Char × List Char)) (oracle : EngineOracle)
        (template_type customer_inquiry : List Char)
        (customer_data company_info : List (List Char × List Char))
        (deviation_tolerance : List Char) (r : GenerationResult),
      (generate_response standard_responses oracle template_type customer_inquiry
          customer_data company_info deviation_tolerance).1 = Except.ok r →
      r.compliance_level = classify r.deviation_percentage r.max_allowed_deviation ∧
      r.is_compliant = decide (r.deviation_percentage ≤ (r.max_allowed_deviation : ℚ))) ∧
    classify 20 10 = "good".data ∧
    decide ((20 : ℚ) ≤ ((10 : Int) : ℚ)) = false := by
  refine ⟨?_, ?_, by decide, by decide⟩
  · intro d m h
    unfold classify at h
    split_ifs at h with h1 h2 h3
    · exact absurd h (by decide)
    · exact absurd h (by decide)
    · exact absurd h (by decide)
    · exact decide_eq_false h3
  · intro standard_responses oracle template_type customer_inquiry customer_data
      company_info deviation_tolerance r hok
    obtain ⟨hd, hm, hc, hl⟩ := generate_response_ok_fields standard_responses oracle
      template_type customer_inquiry customer_data company_info deviation_tolerance r hok
    constructor
    · rw [hl, hd, hm]
    · rw [hc, hd, hm]

/-- Witness for C10 at a concrete warning-classified score. -/
theorem C10_witness : decide ((40 : ℚ) ≤ ((25 : Int) : ℚ)) = false :=
  C10_tier_flag_disagreement.1 40 25 (by decide)

/-- Claim C3: for each of the four tolerance levels, the result of a successful
run carries the integer ceiling of that tolerance as its maximum allowed
deviation, and its compliance flag is set exactly when the measured
deviation is at most that ceiling. -/
theorem C3_ceiling_and_compliance (standard_responses : List (List Char × List Char))
    (oracle : EngineOracle) (template_type customer_inquiry : List Char)
    (customer_data company_info : List (List Char × List Char))
    (tolerance : List Char) (ceiling : Int) (r : GenerationResult)
    (hmem : (tolerance, ceiling) ∈ [("strict".data, (10 : Int)),
      ("minimal".data, (25 : Int)), ("moderate".data, (50 : Int)),
      ("flexible".data, (70 : Int))])
    (hok : (generate_response standard_responses oracle template_type customer_inquiry
        customer_data company_info tolerance).1 = Except.ok r) :
    r.max_allowed_deviation = ceiling ∧
    (r.is_compliant = true ↔ r.deviation_percentage ≤ (ceiling : ℚ)) := by
  obtain ⟨hd, hm, hc, _⟩ := generate_response_ok_fields standard_responses oracle
    template_type customer_inquiry customer_data company_info tolerance r hok
  have hlim : get_deviation_tolerance_limit tolerance = ceiling := by
    simp only [List.mem_cons, List.not_mem_nil, or_false, Prod.mk.injEq] at hmem
    rcases hmem with ⟨rfl, rfl⟩ | ⟨rfl, rfl⟩ | ⟨rfl, rfl⟩ | ⟨rfl, rfl⟩ <;> decide
  refine ⟨by rw [hm, hlim], ?_⟩
  rw [hc, hd, hlim]
  simp

/-- Witness for C3 at a concrete strict-tolerance run with score 20. -/
theorem C3_witness :
    ({ generated_response := "g".data
       standard_response := "b".data
       deviation_percentage := 20
       max_allowed_deviation := 10
       is_compliant := false
       compliance_level := "good".data
       compliance_message := "✅ Good: Response stays within acceptable deviation range".data
       template_type := "t".data
       deviation_tolerance := "strict".data } : GenerationResult).max_allowed_deviation
      = 10 ∧
    (({ generated_response := "g".data
        standard_response := "b".data
        deviation_percentage := 20
        max_allowed_deviation := 10
        is_compliant := false
        compliance_level := "good".data
        compliance_message := "✅ Good: Response stays within acceptable deviation range".data
        template_type := "t".data
        deviation_tolerance := "strict".data } : GenerationResult).is_compliant = true ↔
      ({ generated_response := "g".data
         standard_response := "b".data
         deviation_percentage := 20
         max_allowed_deviation := 10
         is_compliant := false
         compliance_level := "good".data
         compliance_message := "✅ Good: Response stays within acceptable deviation range".data
         template_type := "t".data
         deviation_tolerance := "strict".data } : GenerationResult).deviation_percentage
        ≤ ((10 : Int) : ℚ)) :=
  C3_ceiling_and_compliance [("t".data, "b".data)]
    ⟨Except.ok "g".data, Except.ok "20".data⟩ "t".data "i".data [] [] "strict".data 10 _
    (by decide) (by decide)
